import Mathlib

/-!
Verification development for the Compass CX orchestrator
(src/main.py: the `/orchestrate` and `/action` handlers with their helpers,
and src/policy/pip.py: `evaluate_policy`).

Modelling conventions (shallow embedding of the Python source):
- Monetary values are exact integer CENTS (`Money := Int`). Every literal the
  program handles has at most two decimal places (the amount regex allows at
  most two fractional digits, and the seeded balances are 2450.12 and 8900.00),
  so dollar floats scale exactly: 2450.12 becomes 245012, the 5000 step-up
  threshold becomes 500000, and all comparisons are order-preserving.
- Texts are Lean `String`s; the regex searches of `parse_amount` and
  `parse_direction` are implemented directly as leftmost-match scans over the
  character list, reproducing the Python `re.search` semantics of the two
  concrete patterns.
- User-facing message strings and policy reason strings carry formatted dynamic
  data (f-strings); they are represented by constructors of the `Reason` and
  `Msg` inductives carrying that same data, one constructor per distinct
  source string.
- `uuid.uuid4()` is nondeterministic; the minted id is passed to `orchestrate`
  as an explicit `freshId` argument (an oracle). No claim depends on
  uniqueness of the minted ids.
- Response cards for the read-only content intents (insights, travel, CD,
  spend, recurring, summary, handoff) are static data that never touch the
  session state; those branches are embedded as identity on the state with
  the debug policy decision they report.
-/

/-- Monetary value in exact integer cents. -/
abbrev Money := Int

/-- The two account names admitted by the program (`ACCT` regex alternatives and
the membership tests in `transfer_set_direction`). -/
inductive Acct
  | checking
  | savings
deriving DecidableEq

/-- The per-session balances dict `{"checking": .., "savings": ..}`. -/
structure Balances where
  checking : Money
  savings : Money
deriving DecidableEq

/-- Dictionary read `b[acct]` (every write path guarantees the key exists). -/
def bal (b : Balances) : Acct → Money
  | .checking => b.checking
  | .savings => b.savings

/-- Dictionary write `b[acct] = v`. -/
def setBal (b : Balances) : Acct → Money → Balances
  | .checking, v => { b with checking := v }
  | .savings, v => { b with savings := v }

/-- The `pending_action` dict shapes actually constructed by main.py.
Every constructed dict has `"type": "transfer"`; the three stages are
`awaiting_direction` (optionally holding `amount_hint`), `awaiting_amount`
(holding the chosen direction) and `awaiting_confirm` (holding the minted
`id`, the direction and the amount). -/
inductive PendingAction
  | awaitingDirection (amountHint : Option Money)
  | awaitingAmount (fromAccount toAccount : Acct)
  | awaitingConfirm (id : String) (fromAccount toAccount : Acct) (amount : Money)
deriving DecidableEq

/-- One session entry of `_DEMO_STATE`. -/
structure SessionState where
  balances : Balances
  pending_action : Option PendingAction
deriving DecidableEq

/-- The fresh-session value inserted by `get_state`:
balances 2450.12 / 8900.00 (in cents) and no pending action. -/
def initSession : SessionState :=
  { balances := { checking := 245012, savings := 890000 }, pending_action := none }

/- ===== Text helpers (Python str semantics on ASCII inputs) ===== -/

/-- Python `\s` / `str.strip` whitespace class. -/
def pyIsSpace (c : Char) : Bool :=
  c = ' ' || c = '\t' || c = '\n' || c = '\r' || c = '\x0b' || c = '\x0c'

/-- Python `str.strip()`. -/
def pyStrip (l : List Char) : List Char :=
  ((l.dropWhile pyIsSpace).reverse.dropWhile pyIsSpace).reverse

/-- Python `str.lower()` (ASCII). -/
def pyLower (l : List Char) : List Char := l.map Char.toLower

/-- Exact list-match of a literal at the current position. -/
def strLeads : List Char → List Char → Bool
  | [], _ => true
  | _ :: _, [] => false
  | a :: as, b :: bs => a = b && strLeads as bs

/-- Python substring test `needle in hay`. -/
def hasSubstr (needle : List Char) : List Char → Bool
  | [] => needle.isEmpty
  | c :: cs => strLeads needle (c :: cs) || hasSubstr needle cs

def isDigitCh (c : Char) : Bool := '0' ≤ c && c ≤ '9'

def digitVal (c : Char) : Nat := c.toNat - '0'.toNat

/- ===== parse_amount =====
`AMOUNT_RE = (\$?\s*\d[\d,]*(?:\.\d{1,2})?)`, `re.search`, then the matched
group is stripped of `$` and `,` and parsed as a decimal.  At a fixed start
position the match is deterministic: an optional `$`, a greedy whitespace run,
a mandatory digit, a greedy run of digits/commas, and an optional `.` followed
by one or two digits (two preferred).  `re.search` takes the leftmost position
admitting a match. -/

/-- Fold a digit list to its value. -/
def digitsVal (ds : List Char) : Nat := ds.foldl (fun n d => 10 * n + digitVal d) 0

/-- Fractional cents of the optional `(?:\.\d{1,2})?` group at `tail`. -/
def fracCents : List Char → Nat
  | '.' :: d1 :: d2 :: _ =>
      if isDigitCh d1 then
        if isDigitCh d2 then 10 * digitVal d1 + digitVal d2 else 10 * digitVal d1
      else 0
  | '.' :: d1 :: [] => if isDigitCh d1 then 10 * digitVal d1 else 0
  | _ => 0

/-- Attempt to match `AMOUNT_RE` at the head of `l`; on success return the
value of the matched group in cents. -/
def matchAmountCents (l : List Char) : Option Nat :=
  let l1 := match l with
    | '$' :: r => r
    | _ => l
  let l2 := l1.dropWhile pyIsSpace
  match l2 with
  | c :: rest =>
      if isDigitCh c then
        let body := rest.takeWhile (fun x => isDigitCh x || x = ',')
        let tail := rest.dropWhile (fun x => isDigitCh x || x = ',')
        let whole := digitsVal (c :: body.filter isDigitCh)
        some (whole * 100 + fracCents tail)
      else none
  | [] => none

/-- Leftmost search of `AMOUNT_RE` over the text. -/
def searchAmountCents : List Char → Option Nat
  | [] => none
  | c :: cs =>
      match matchAmountCents (c :: cs) with
      | some v => some v
      | none => searchAmountCents cs

/-- main.py `parse_amount`: first amount token in the text, as cents. -/
def parse_amount (l : List Char) : Option Money :=
  (searchAmountCents l).map (fun n => (n : Int))

/- ===== parse_direction =====
`DIR_RE_1 = from\s+(checking|savings)\s+to\s+(checking|savings)`
`DIR_RE_2 = (checking|savings)\s+to\s+(checking|savings)`
searched in that order over the lower-cased text; the two account names of the
matched span are returned.  There is no other filtering of the result. -/

/-- Match one `(checking|savings)` alternative at the current position. -/
def matchAcct (l : List Char) : Option (Acct × List Char) :=
  if strLeads "checking".data l then some (.checking, l.drop 8)
  else if strLeads "savings".data l then some (.savings, l.drop 7)
  else none

/-- Match `\s+` (at least one whitespace char, greedy). -/
def ws1 : List Char → Option (List Char)
  | c :: r => if pyIsSpace c then some (r.dropWhile pyIsSpace) else none
  | [] => none

/-- Match `(checking|savings)\s+to\s+(checking|savings)` at the current
position. -/
def matchDirCore (l : List Char) : Option (Acct × Acct) :=
  match matchAcct l with
  | none => none
  | some (a, r1) =>
      match ws1 r1 with
      | none => none
      | some r2 =>
          if strLeads "to".data r2 then
            match ws1 (r2.drop 2) with
            | none => none
            | some r3 =>
                match matchAcct r3 with
                | none => none
                | some (b, _) => some (a, b)
          else none

/-- Match `DIR_RE_1` at the current position. -/
def matchDir1 (l : List Char) : Option (Acct × Acct) :=
  if strLeads "from".data l then
    match ws1 (l.drop 4) with
    | none => none
    | some r => matchDirCore r
  else none

/-- Leftmost search of `DIR_RE_1`. -/
def searchDir1 : List Char → Option (Acct × Acct)
  | [] => none
  | c :: cs =>
      match matchDir1 (c :: cs) with
      | some p => some p
      | none => searchDir1 cs

/-- Leftmost search of `DIR_RE_2`. -/
def searchDir2 : List Char → Option (Acct × Acct)
  | [] => none
  | c :: cs =>
      match matchDirCore (c :: cs) with
      | some p => some p
      | none => searchDir2 cs

/-- main.py `parse_direction`: lower-case the text, search the explicit
`from A to B` pattern first, then the looser `A to B` pattern; return the
matched account pair (the Python `(None, None)` result is `none` here). -/
def parse_direction (l : List Char) : Option (Acct × Acct) :=
  let t := pyLower l
  match searchDir1 t with
  | some p => some p
  | none => searchDir2 t

/- ===== route_intent ===== -/

/-- main.py `route_intent`: the keyword cascade over the lower-cased, stripped
text, in source order. Intents stay strings exactly as in the source. -/
def route_intent (l : List Char) : String :=
  let t := pyStrip (pyLower l)
  if t = "insights".data || hasSubstr "show insights".data t
      || hasSubstr "my insights".data t then "bank_insights"
  else if t = "manage cd".data || hasSubstr "manage cd".data t then
    "assets_cd_maturity"
  else if hasSubstr "cd".data t && (hasSubstr "maturity".data t
      || hasSubstr "mature".data t || hasSubstr "alert".data t) then
    "assets_cd_maturity"
  else if t = "travel".data || hasSubstr "travel".data t then "travel_upcoming"
  else if hasSubstr "upcoming travel".data t || hasSubstr "upcoming trip".data t
      || (hasSubstr "travel".data t && hasSubstr "upcoming".data t)
      || hasSubstr "vacation".data t then "travel_upcoming"
  else if hasSubstr "agent".data t || hasSubstr "representative".data t
      || hasSubstr "human".data t || hasSubstr "talk to".data t then
    "agent_handoff"
  else if hasSubstr "recurring".data t || hasSubstr "subscription".data t then
    "bank_recurring_charges"
  else if hasSubstr "spend".data t && (hasSubstr "analysis".data t
      || hasSubstr "insight".data t) then "bank_spend_analysis"
  else if hasSubstr "account".data t && (hasSubstr "summary".data t
      || hasSubstr "balance".data t) then "bank_account_summary"
  else if hasSubstr "transfer".data t || hasSubstr "send".data t
      || hasSubstr "move money".data t then "bank_transfer"
  else if hasSubstr "transfer money".data t then "bank_transfer"
  else "unknown"

/- ===== Policy gates ===== -/

/-- Policy/assistant reason and message strings. Each constructor stands for
one distinct source string, carrying the data its f-string interpolates.
The main.py `policy_check` strings: "Allowed", "Needs amount",
"Invalid transfer amount.", "Transfer amount must be > 0.",
"Insufficient funds in X. Available: $Y", the step-up sentence and
"Requires confirmation"; the orchestrate debug-only "Needs direction"; and the
pip.py `evaluate_policy` strings: the not-understood sentence,
"Amount required (clarify)" and its own variants of the transfer rules. -/
inductive Reason
  | allowed
  | needsAmount
  | needsDirection
  | invalidAmount
  | notPositive
  | insufficientFunds (fromAccount : Acct) (available : Money)
  | stepUp
  | requiresConfirmation
  | notUnderstood
  | amountClarify
  | pipInvalidAmount
  | pipNotPositive
  | pipStepUp
  | pipInsufficientFunds (fromAccount : Acct) (available : Money)
deriving DecidableEq

/-- A policy decision: `allow`, `risk` (the literal strings "low" / "medium" /
"high") and `reason`. Shared by main.py dict decisions and the pip.py
`PolicyDecision` dataclass. -/
structure Decision where
  allow : Bool
  risk : String
  reason : Reason
deriving DecidableEq

/-- The per-turn entities dict: optional amount and account pair. In every
call site of the gates the amount, when present, is already a float, so the
`float(...)` conversions of the gates cannot fail here; the corresponding
invalid-amount branches are left in the gate bodies as dead alternatives of
the typed model. -/
structure Entities where
  amount : Option Money
  from_account : Option Acct
  to_account : Option Acct
deriving DecidableEq

/-- main.py `policy_check` (the gate orchestrate actually calls).
Rule order as in the source: non-transfer intents allowed; missing amount
allowed with "Needs amount"; non-positive amount blocked; insufficient funds
in a known source account blocked (BEFORE the step-up rule); amounts of at
least $5,000 blocked with risk high; otherwise allowed pending confirmation. -/
def policy_check (intent : String) (entities : Entities) (state : SessionState) : Decision :=
  if intent ≠ "bank_transfer" then { allow := true, risk := "low", reason := .allowed }
  else
    match entities.amount with
    | none => { allow := true, risk := "medium", reason := .needsAmount }
    | some amount =>
        if amount ≤ 0 then { allow := false, risk := "low", reason := .notPositive }
        else
          match entities.from_account with
          | some f =>
              if amount > bal state.balances f then
                { allow := false, risk := "low",
                  reason := .insufficientFunds f (bal state.balances f) }
              else if amount ≥ 500000 then
                { allow := false, risk := "high", reason := .stepUp }
              else { allow := true, risk := "medium", reason := .requiresConfirmation }
          | none =>
              if amount ≥ 500000 then { allow := false, risk := "high", reason := .stepUp }
              else { allow := true, risk := "medium", reason := .requiresConfirmation }

/-- src/policy/pip.py `evaluate_policy`. Rule order as in that source: empty
or unknown intent blocked with the not-understood reason; for transfers:
missing amount allowed (clarify), non-positive blocked, step-up threshold
blocked (in pip.py this precedes the funds check), insufficient funds in the
source account (defaulting to checking) blocked when balances are supplied;
everything else allowed. -/
def evaluate_policy (intent : String) (entities : Entities)
    (balances : Option Balances) : Decision :=
  if intent = "" || intent = "unknown" then
    { allow := false, risk := "low", reason := .notUnderstood }
  else if intent = "bank_transfer" then
    match entities.amount with
    | none => { allow := true, risk := "low", reason := .amountClarify }
    | some amt =>
        if amt ≤ 0 then { allow := false, risk := "low", reason := .pipNotPositive }
        else if amt ≥ 500000 then { allow := false, risk := "high", reason := .pipStepUp }
        else
          match balances with
          | some b =>
              let f := entities.from_account.getD .checking
              if bal b f < amt then
                { allow := false, risk := "low", reason := .pipInsufficientFunds f (bal b f) }
              else { allow := true, risk := "low", reason := .allowed }
          | none => { allow := true, risk := "low", reason := .allowed }
  else { allow := true, risk := "low", reason := .allowed }

/- ===== /action ===== -/

/-- Assistant message of an action response, one constructor per distinct
source string (dynamic data carried as fields). -/
inductive Msg
  | openedInsight
  | invalidDirection
  | askDirectionAmount (fromAccount toAccount : Acct) (hint : Option Money)
  | cancelled
  | noTransferToConfirm
  | insufficientFunds (fromAccount : Acct)
  | transferComplete (amount : Money) (toAccount : Acct)
  | agentConnected
  | agentStayed
  | unknownAction
deriving DecidableEq

/-- The `/action` response fields the claims are about: `ok` and the first
assistant message. -/
structure ActResult where
  ok : Bool
  msg : Msg
deriving DecidableEq

/-- The `params` dict of an `/action` request, restricted to the keys the
transfer actions read. Values arrive as client strings. -/
structure ActionParams where
  action_id : Option String
  from_account : Option String
  to_account : Option String
deriving DecidableEq

/-- Decode a client account string against the `("checking", "savings")`
membership tests. -/
def decodeAcct : Option String → Option Acct
  | some "checking" => some .checking
  | some "savings" => some .savings
  | _ => none

/-- main.py `action` (the `/action` handler), as a function of the session
state: dispatch on `action_name`.
`insight_view`, `agent_connect`, `agent_cancel` return static content and do
not touch the state. `transfer_set_direction` validates the account pair and
resets the pending action to `awaiting_amount` (the old `amount_hint` only
decorates the message). `cancel_transfer` unconditionally clears the pending
action. `confirm_transfer` requires a pending transfer in `awaiting_confirm`
stage — it reads NO params — then re-checks funds against the current
balances: on overdraft it clears the pending action and fails; otherwise it
debits the source, credits the destination and clears the pending action. -/
def action (state : SessionState) (action_name : String) (params : ActionParams) :
    SessionState × ActResult :=
  if action_name = "insight_view" then (state, { ok := true, msg := .openedInsight })
  else if action_name = "transfer_set_direction" then
    match decodeAcct params.from_account, decodeAcct params.to_account with
    | some f, some t =>
        if f = t then (state, { ok := false, msg := .invalidDirection })
        else
          let hint := match state.pending_action with
            | some (.awaitingDirection h) => h
            | _ => none
          ({ state with pending_action := some (.awaitingAmount f t) },
            { ok := true, msg := .askDirectionAmount f t hint })
    | _, _ => (state, { ok := false, msg := .invalidDirection })
  else if action_name = "cancel_transfer" then
    ({ state with pending_action := none }, { ok := true, msg := .cancelled })
  else if action_name = "confirm_transfer" then
    match state.pending_action with
    | some (.awaitingConfirm _ f t a) =>
        if a > bal state.balances f then
          ({ state with pending_action := none },
            { ok := false, msg := .insufficientFunds f })
        else
          let b1 := setBal state.balances f (bal state.balances f - a)
          let b2 := setBal b1 t (bal b1 t + a)
          ({ balances := b2, pending_action := none },
            { ok := true, msg := .transferComplete a t })
    | _ => (state, { ok := false, msg := .noTransferToConfirm })
  else if action_name = "agent_connect" then (state, { ok := true, msg := .agentConnected })
  else if action_name = "agent_cancel" then (state, { ok := true, msg := .agentStayed })
  else (state, { ok := false, msg := .unknownAction })

/- ===== /orchestrate ===== -/

/-- main.py `orchestrate` (the `/orchestrate` handler), as a function of the
session state; `freshId` stands for the `uuid.uuid4()` minted in that call.
The returned `Decision` is the `debug.policy` value of the response.

Mirrors the source structure: the mid-flight branch fires whenever the pending
action is a transfer in `awaiting_amount` stage and consumes the text purely
as an amount reply (keeping the stored direction); otherwise the text is
routed, and a `bank_transfer` intent goes through the four cases (no info /
amount only / direction only / both, the last gated by `policy_check`).
All non-transfer intents return static cards, leave the state untouched and
report the allowed/low policy. -/
def orchestrate (freshId : String) (text : String) (state : SessionState) :
    SessionState × Decision :=
  let txt := pyStrip text.data
  match state.pending_action with
  | some (.awaitingAmount f t) =>
      (match parse_amount txt with
      | none => (state, { allow := true, risk := "medium", reason := .needsAmount })
      | some a =>
          let entities : Entities := { amount := some a, from_account := some f, to_account := some t }
          let policy := policy_check "bank_transfer" entities state
          if policy.allow then
            ({ state with pending_action := some (.awaitingConfirm freshId f t a) }, policy)
          else ({ state with pending_action := none }, policy))
  | _ =>
      let intent := route_intent txt
      if intent = "bank_transfer" then
        match parse_direction txt, parse_amount txt with
        | none, none =>
            ({ state with pending_action := some (.awaitingDirection none) },
              { allow := true, risk := "medium", reason := .needsDirection })
        | none, some a =>
            ({ state with pending_action := some (.awaitingDirection (some a)) },
              { allow := true, risk := "medium", reason := .needsDirection })
        | some (f, t), none =>
            ({ state with pending_action := some (.awaitingAmount f t) },
              { allow := true, risk := "medium", reason := .needsAmount })
        | some (f, t), some a =>
            let entities : Entities := { amount := some a, from_account := some f, to_account := some t }
            let policy := policy_check intent entities state
            if policy.allow then
              ({ state with pending_action := some (.awaitingConfirm freshId f t a) }, policy)
            else ({ state with pending_action := none }, policy)
      else (state, { allow := true, risk := "low", reason := .allowed })

/- ===== Session store and request traces ===== -/

/-- One inbound request against a fixed session: an `/orchestrate` call (with
its uuid oracle) or an `/action` call. -/
inductive Request
  | orch (freshId text : String)
  | act (action_name : String) (params : ActionParams)

/-- The state transition a request induces on its session. -/
def sessionStep (state : SessionState) : Request → SessionState
  | .orch freshId text => (orchestrate freshId text state).1
  | .act name params => (action state name params).1

/-- The `_DEMO_STATE` dict: session id to session state. -/
def Store := String → Option SessionState

/-- main.py `get_state`: get-or-create, returning the updated store and the
entry for the requested session. -/
def get_state (s : Store) (session_id : String) : Store × SessionState :=
  match s session_id with
  | some st => (s, st)
  | none => (fun x => if x = session_id then some initSession else s x, initSession)

/-- A full request cycle at the store level: look up (or create) the session
named in the request, run the handler on it, store the result back under the
same key. -/
def storeStep (s : Store) (session_id : String) (r : Request) : Store :=
  let p := get_state s session_id
  let st2 := sessionStep p.2 r
  fun x => if x = session_id then some st2 else p.1 x

/- ===== Concrete fixtures and invariant definitions ===== -/

/-- A session holding a pending 25-dollar checking-to-savings transfer
awaiting confirmation under the minted id "tok". -/
def sessTok : SessionState :=
  { balances := { checking := 245012, savings := 890000 },
    pending_action := some (.awaitingConfirm "tok" .checking .savings 2500) }

/-- An `/action` params dict whose `action_id` does not match the minted
id of `sessTok`. -/
def wrongTokParams : ActionParams :=
  { action_id := some "WRONG", from_account := none, to_account := none }

/-- A session holding a pending transfer awaiting confirmation whose amount
(9999.99 dollars) exceeds the current checking balance (2450.12 dollars). -/
def sessOverdraft : SessionState :=
  { balances := { checking := 245012, savings := 890000 },
    pending_action := some (.awaitingConfirm "w8" .checking .savings 999999) }

/-- The literal account name, as it appears in the `ACCT` regex. -/
def acctStr : Acct → String
  | .checking => "checking"
  | .savings => "savings"

/-- A session whose transfer wizard is waiting for an amount for the
checking-to-savings direction. -/
def sessAwaitAmt : SessionState :=
  { balances := { checking := 245012, savings := 890000 },
    pending_action := some (.awaitingAmount .checking .savings) }

/-- Auxiliary invariant on the pending slot: a transfer awaiting confirmation
always carries a non-negative amount (amounts come from `parse_amount`, whose
regex admits no sign). -/
def pendingAmountOk : Option PendingAction → Prop
  | some (.awaitingConfirm _ _ _ a) => 0 ≤ a
  | _ => True

/-- The session invariant: both balances non-negative, and any pending
confirmation amount non-negative. -/
def SessInv (st : SessionState) : Prop :=
  0 ≤ st.balances.checking ∧ 0 ≤ st.balances.savings
    ∧ pendingAmountOk st.pending_action

/- ===== Helper lemmas ===== -/

/-- Characterization of the `confirm_transfer` branch of `action`: the params
are not consulted; the outcome depends only on the pending action and the
current balances. -/
theorem confirm_transfer_eq (st : SessionState) (p : ActionParams) :
    action st "confirm_transfer" p =
      match st.pending_action with
      | some (.awaitingConfirm _ f t a) =>
          if a > bal st.balances f then
            ({ st with pending_action := none },
              { ok := false, msg := .insufficientFunds f })
          else
            let b1 := setBal st.balances f (bal st.balances f - a)
            let b2 := setBal b1 t (bal b1 t + a)
            ({ balances := b2, pending_action := none },
              { ok := true, msg := .transferComplete a t })
      | _ => (st, { ok := false, msg := .noTransferToConfirm }) := rfl

/- ===== C1: confirm token checking ===== -/

/-- C1 counterexample: the claim that a `confirm_transfer` whose `action_id`
is missing or does not match the pending transfer id is rejected with the
no-transfer-to-confirm failure and leaves balances unchanged is FALSE.
With the pending transfer minted under id "tok", a confirm carrying the
mismatched token "WRONG" succeeds (ok = true) and debits checking from
2450.12 to 2425.12 dollars: the handler never reads the params. -/
theorem confirm_mismatched_token_executes :
    (action sessTok "confirm_transfer" wrongTokParams).2.ok = true
    ∧ (action sessTok "confirm_transfer" wrongTokParams).1.balances.checking = 242512 := by
  decide

/-- C1 (amended): `confirm_transfer` ignores the `action_id` parameter
entirely — its result is identical for every params value, matching, missing
or mismatched alike — and it fails with the no-transfer-to-confirm rejection
(ok = false, state untouched) exactly when the session has no pending transfer
in the `awaiting_confirm` stage. -/
theorem confirm_ignores_token :
    (∀ (st : SessionState) (p q : ActionParams),
        action st "confirm_transfer" p = action st "confirm_transfer" q)
    ∧ (∀ (st : SessionState) (p : ActionParams),
        (∀ (i : String) (f t : Acct) (a : Money),
            st.pending_action ≠ some (.awaitingConfirm i f t a)) →
        action st "confirm_transfer" p
          = (st, { ok := false, msg := .noTransferToConfirm })) := by
  constructor
  · intro st p q
    rw [confirm_transfer_eq, confirm_transfer_eq]
  · intro st p h
    rw [confirm_transfer_eq]
    match hp : st.pending_action with
    | none => rfl
    | some (.awaitingDirection hint) => rfl
    | some (.awaitingAmount f t) => rfl
    | some (.awaitingConfirm i f t a) => exact absurd hp (h i f t a)

/-- C1 witness: the amended theorem applied to the fresh session (no pending
transfer) and a concrete mismatched-token params value. -/
theorem confirm_ignores_token_witness :
    action initSession "confirm_transfer" wrongTokParams
      = (initSession, { ok := false, msg := .noTransferToConfirm }) :=
  confirm_ignores_token.2 initSession wrongTokParams
    (fun _ _ _ _ h => Option.noConfusion h)

/- ===== C3: conservation ===== -/

/-- C3: for every successful `confirm_transfer` execution, the sum of the
checking and savings balances after the transfer equals the sum before it
(the debit and credit are both by exactly the pending amount). -/
theorem confirm_conserves_sum (st st2 : SessionState) (p : ActionParams) (r : ActResult)
    (h : action st "confirm_transfer" p = (st2, r)) (hok : r.ok = true) :
    st2.balances.checking + st2.balances.savings
      = st.balances.checking + st.balances.savings := by
  rw [confirm_transfer_eq] at h
  match hp : st.pending_action with
  | none => simp only [hp] at h; cases h; cases hok
  | some (.awaitingDirection hint) => simp only [hp] at h; cases h; cases hok
  | some (.awaitingAmount f t) => simp only [hp] at h; cases h; cases hok
  | some (.awaitingConfirm i f t a) =>
      simp only [hp] at h
      by_cases hov : a > bal st.balances f
      · rw [if_pos hov] at h; cases h; cases hok
      · rw [if_neg hov] at h
        cases h
        cases f <;> cases t <;> simp only [bal, setBal] <;> ring

/-- C3 witness: a concrete successful confirmation (25 dollars from checking
to savings on the fresh balances) conserves the sum. -/
theorem confirm_conserves_sum_witness :
    (action sessTok "confirm_transfer" wrongTokParams).2.ok = true
    ∧ (action sessTok "confirm_transfer" wrongTokParams).1.balances.checking
        + (action sessTok "confirm_transfer" wrongTokParams).1.balances.savings
      = sessTok.balances.checking + sessTok.balances.savings :=
  ⟨by decide,
    confirm_conserves_sum sessTok _ wrongTokParams _ rfl (by decide)⟩

/- ===== C4: at-most-once execution ===== -/

/-- C4: after a `confirm_transfer` succeeds, a second `confirm_transfer` on
the resulting session (with the same token or any other) fails with the
no-transfer-to-confirm rejection and changes nothing: the transfer is never
applied twice. -/
theorem confirm_at_most_once (st st1 st2 : SessionState) (p p2 : ActionParams)
    (r1 r2 : ActResult)
    (h1 : action st "confirm_transfer" p = (st1, r1)) (hok : r1.ok = true)
    (h2 : action st1 "confirm_transfer" p2 = (st2, r2)) :
    r2.ok = false ∧ r2.msg = .noTransferToConfirm ∧ st2 = st1 := by
  have hclear : st1.pending_action = none := by
    rw [confirm_transfer_eq] at h1
    match hp : st.pending_action with
    | none => simp only [hp] at h1; cases h1; cases hok
    | some (.awaitingDirection hint) => simp only [hp] at h1; cases h1; cases hok
    | some (.awaitingAmount f t) => simp only [hp] at h1; cases h1; cases hok
    | some (.awaitingConfirm i f t a) =>
        simp only [hp] at h1
        by_cases hov : a > bal st.balances f
        · rw [if_pos hov] at h1; cases h1; cases hok
        · rw [if_neg hov] at h1; cases h1; rfl
  rw [confirm_transfer_eq, hclear] at h2
  cases h2
  exact ⟨rfl, rfl, rfl⟩

/-- C4 witness: on the session with the pending 25-dollar transfer, a first
confirm succeeds, and the repeated confirm with the identical params fails
with the no-transfer-to-confirm rejection and leaves the state exactly as the
first confirm left it. -/
theorem confirm_at_most_once_witness :
    (action sessTok "confirm_transfer" wrongTokParams).2.ok = true
    ∧ ((action (action sessTok "confirm_transfer" wrongTokParams).1
          "confirm_transfer" wrongTokParams).2.ok = false
      ∧ (action (action sessTok "confirm_transfer" wrongTokParams).1
          "confirm_transfer" wrongTokParams).2.msg = .noTransferToConfirm
      ∧ (action (action sessTok "confirm_transfer" wrongTokParams).1
          "confirm_transfer" wrongTokParams).1
        = (action sessTok "confirm_transfer" wrongTokParams).1) :=
  ⟨by decide,
    confirm_at_most_once sessTok _ _ wrongTokParams wrongTokParams _ _
      rfl (by decide) rfl⟩

/- ===== C8: execution-time funds re-validation ===== -/

/-- C8: `confirm_transfer` re-validates funds against the current balances; if
the pending amount exceeds the current source-account balance the action fails
with the insufficient-funds result (ok = false), the balances are untouched,
and the pending transfer is cleared, so the session does not stay in a
confirmable-but-invalid state. -/
theorem confirm_revalidates_funds (st : SessionState) (i : String) (f t : Acct)
    (a : Money) (p : ActionParams)
    (hp : st.pending_action = some (.awaitingConfirm i f t a))
    (hover : a > bal st.balances f) :
    action st "confirm_transfer" p
      = ({ st with pending_action := none },
          { ok := false, msg := .insufficientFunds f }) := by
  rw [confirm_transfer_eq]
  simp only [hp]
  rw [if_pos hover]

/-- C8 witness: confirming the overdrawn pending transfer fails with the
insufficient-funds result and clears the pending transfer while keeping the
balances. -/
theorem confirm_revalidates_funds_witness :
    action sessOverdraft "confirm_transfer" wrongTokParams
      = ({ sessOverdraft with pending_action := none },
          { ok := false, msg := .insufficientFunds .checking }) :=
  confirm_revalidates_funds sessOverdraft "w8" .checking .savings 999999
    wrongTokParams rfl (by decide)

/- ===== C5: the 6000-dollar scenario ===== -/

/-- C5 counterexample: the claim that orchestrating
"transfer $6000 from checking to savings" on a fresh session blocks with risk
High and a step-up reason is FALSE: the insufficient-funds rule of
`policy_check` runs before the 5000-dollar step-up rule, and the fresh
checking balance 2450.12 is below 6000, so the block carries risk "low" and
the insufficient-funds reason, not the step-up one. -/
theorem scenario5_not_high_risk :
    (orchestrate "t5" "transfer $6000 from checking to savings" initSession).2.risk ≠ "high"
    ∧ (orchestrate "t5" "transfer $6000 from checking to savings" initSession).2.reason
      ≠ Reason.stepUp := by decide

/-- C5 (amended): on a fresh session the text
"transfer $6000 from checking to savings" is blocked by the policy gate, but
with risk "low" and the insufficient-funds reason naming checking and its
available balance 2450.12 (the insufficient-funds rule precedes the step-up
rule and fires first); no pending transfer is created and the balances are
untouched (the resulting session is exactly the fresh session). -/
theorem scenario5_blocks_insufficient_funds :
    orchestrate "t5" "transfer $6000 from checking to savings" initSession
      = (initSession,
          { allow := false, risk := "low",
            reason := .insufficientFunds .checking 245012 }) := by decide

/- ===== C6: unknown intent blocked by the policy gate ===== -/

/-- C6: for every entities value and every balances argument, the policy gate
`evaluate_policy` (src/policy/pip.py) blocks the unknown intent with
allow = false, risk "low" and the not-understood reason. -/
theorem unknown_intent_blocked (e : Entities) (b : Option Balances) :
    evaluate_policy "unknown" e b
      = { allow := false, risk := "low", reason := .notUnderstood } := rfl

/- ===== C7: direction extractor and equal accounts ===== -/

/-- C7 counterexample: the claim that `parse_direction` never returns a pair
whose two accounts are equal (and returns none when only same-account patterns
match) is FALSE: on "checking to checking" it returns the pair
(checking, checking). -/
theorem parse_direction_equal_pair :
    parse_direction "checking to checking".data = some (.checking, .checking) := by decide

/-- C7 (amended): `parse_direction` applies no equality filter to the matched
pair: for any two account names A and B, equal or not, the text "A to B"
yields the pair (A, B); it returns none only when neither pattern matches. -/
theorem parse_direction_no_equality_filter (a b : Acct) :
    parse_direction (acctStr a ++ " to " ++ acctStr b).data = some (a, b) := by
  cases a <;> cases b <;> decide

/- ===== C9: new transfer intent while a transfer is pending ===== -/

/-- C9 counterexample: the claim that a new transfer-intent text always
replaces the pending transfer with one for the newly requested transfer is
FALSE in the `awaiting_amount` stage: with checking-to-savings pending, the
text "transfer $50 from savings to checking" (a transfer intent naming the
savings-to-checking direction) is consumed by the mid-flight branch as a bare
amount reply, producing a pending confirmation that still has the OLD
checking-to-savings direction. -/
theorem midflight_keeps_old_direction :
    (orchestrate "t9" "transfer $50 from savings to checking" sessAwaitAmt).1.pending_action
      = some (.awaitingConfirm "t9" .checking .savings 5000)
    ∧ route_intent "transfer $50 from savings to checking".data = "bank_transfer"
    ∧ parse_direction "transfer $50 from savings to checking".data
      = some (.savings, .checking) := by decide

/-- C9 (amended): at most one pending transfer exists per session (the slot
holds at most one value), and a transfer-intent text overwrites it — but what
it is overwritten with depends on the stage: outside the `awaiting_amount`
stage, a policy-allowed text carrying both direction and amount installs a
pending confirmation for exactly the newly requested transfer; in the
`awaiting_amount` stage the text is treated as an amount reply, and the new
pending confirmation keeps the stored direction, ignoring any direction in
the text. -/
theorem transfer_intent_overwrites_pending :
    (∀ (st : SessionState) (fid txt : String) (f t : Acct) (a : Money),
        (∀ (f0 t0 : Acct), st.pending_action ≠ some (.awaitingAmount f0 t0)) →
        route_intent (pyStrip txt.data) = "bank_transfer" →
        parse_direction (pyStrip txt.data) = some (f, t) →
        parse_amount (pyStrip txt.data) = some a →
        (policy_check "bank_transfer"
            { amount := some a, from_account := some f, to_account := some t } st).allow
          = true →
        (orchestrate fid txt st).1.pending_action
          = some (.awaitingConfirm fid f t a))
    ∧ (∀ (st : SessionState) (fid txt : String) (f0 t0 : Acct) (a : Money),
        st.pending_action = some (.awaitingAmount f0 t0) →
        parse_amount (pyStrip txt.data) = some a →
        (policy_check "bank_transfer"
            { amount := some a, from_account := some f0, to_account := some t0 } st).allow
          = true →
        (orchestrate fid txt st).1.pending_action
          = some (.awaitingConfirm fid f0 t0 a)) := by
  constructor
  · intro st fid txt f t a hstage hroute hdir hamt hallow
    unfold orchestrate
    match hp : st.pending_action with
    | none =>
        simp only [hp, hroute, if_pos rfl, hdir, hamt, hallow, if_pos]
    | some (.awaitingDirection hint) =>
        simp only [hp, hroute, if_pos rfl, hdir, hamt, hallow, if_pos]
    | some (.awaitingAmount f0 t0) => exact absurd hp (hstage f0 t0)
    | some (.awaitingConfirm i0 f0 t0 a0) =>
        simp only [hp, hroute, if_pos rfl, hdir, hamt, hallow, if_pos]
  · intro st fid txt f0 t0 a hp hamt hallow
    unfold orchestrate
    simp only [hp, hamt, hallow, if_pos]

/-- C9 witness: the amended theorem applied twice concretely — on a fresh
session (no pending transfer) the text "transfer $50 from savings to
checking" installs a pending savings-to-checking confirmation for 50 dollars,
and on the session awaiting an amount for checking-to-savings the bare reply
"$50" installs a pending checking-to-savings confirmation for 50 dollars. -/
theorem transfer_intent_overwrites_pending_witness :
    (orchestrate "w9a" "transfer $50 from savings to checking" initSession).1.pending_action
      = some (.awaitingConfirm "w9a" .savings .checking 5000)
    ∧ (orchestrate "w9b" "$50" sessAwaitAmt).1.pending_action
      = some (.awaitingConfirm "w9b" .checking .savings 5000) :=
  ⟨transfer_intent_overwrites_pending.1 initSession "w9a"
      "transfer $50 from savings to checking" .savings .checking 5000
      (fun _ _ h => Option.noConfusion h) (by decide) (by decide) (by decide) (by decide),
    transfer_intent_overwrites_pending.2 sessAwaitAmt "w9b" "$50"
      .checking .savings 5000 rfl (by decide) (by decide)⟩

/- ===== C10: frame property across sessions ===== -/

/-- C10: a request cycle for session id `session_id` leaves the stored state
of every other session id unchanged: the handlers read and write only the
session named in the request. -/
theorem other_sessions_unchanged (s : Store) (session_id : String) (r : Request)
    (x : String) (h : x ≠ session_id) : storeStep s session_id r x = s x := by
  unfold storeStep get_state
  cases hs : s session_id <;> simp [hs, h]

/-- C10 witness: on the empty store, an orchestrate request for session
"alice" leaves session "bob" absent. -/
theorem other_sessions_unchanged_witness :
    storeStep (fun _ => none) "alice" (.orch "id1" "hello") "bob" = none :=
  other_sessions_unchanged (fun _ => none) "alice" (.orch "id1" "hello") "bob"
    (by decide)

/- ===== C2: no negative balances on any reachable state ===== -/

/-- Amounts produced by `parse_amount` are non-negative. -/
theorem parse_amount_nonneg (l : List Char) (a : Money)
    (h : parse_amount l = some a) : 0 ≤ a := by
  unfold parse_amount at h
  match hs : searchAmountCents l with
  | none => rw [hs] at h; cases h
  | some n =>
      rw [hs] at h
      have hna : (n : Int) = a := Option.some.inj h
      rw [← hna]
      exact Int.natCast_nonneg n

/-- `orchestrate` never touches the balances. -/
theorem orchestrate_balances_eq (fid txt : String) (st : SessionState) :
    (orchestrate fid txt st).1.balances = st.balances := by
  unfold orchestrate
  match hp : st.pending_action with
  | some (.awaitingAmount f t) =>
      simp only [hp]
      split
      · rfl
      · split <;> rfl
  | none =>
      simp only [hp]
      split
      · split <;> try rfl
        split <;> rfl
      · rfl
  | some (.awaitingDirection hint) =>
      simp only [hp]
      split
      · split <;> try rfl
        split <;> rfl
      · rfl
  | some (.awaitingConfirm i0 f0 t0 a0) =>
      simp only [hp]
      split
      · split <;> try rfl
        split <;> rfl
      · rfl

/-- Every pending action `orchestrate` installs keeps the pending-amount
invariant: confirmation amounts always come from `parse_amount`. -/
theorem orchestrate_pendingOk (fid txt : String) (st : SessionState)
    (h : pendingAmountOk st.pending_action) :
    pendingAmountOk (orchestrate fid txt st).1.pending_action := by
  unfold orchestrate
  match hp : st.pending_action with
  | some (.awaitingAmount f t) =>
      simp only [hp]
      split
      · exact h
      · rename_i a heq
        split
        · exact parse_amount_nonneg _ _ heq
        · exact trivial
  | none =>
      simp only [hp]
      split
      · split
        · exact trivial
        · exact trivial
        · exact trivial
        · rename_i f t a heq
          split
          · exact parse_amount_nonneg _ _ heq
          · exact trivial
      · exact h
  | some (.awaitingDirection hint) =>
      simp only [hp]
      split
      · split
        · exact trivial
        · exact trivial
        · exact trivial
        · rename_i f t a heq
          split
          · exact parse_amount_nonneg _ _ heq
          · exact trivial
      · exact h
  | some (.awaitingConfirm i0 f0 t0 a0) =>
      simp only [hp]
      split
      · split
        · exact trivial
        · exact trivial
        · exact trivial
        · rename_i f t a heq
          split
          · exact parse_amount_nonneg _ _ heq
          · exact trivial
      · exact h

/-- Every `/action` request preserves the session invariant; in particular a
successful confirm debits at most the available source balance. -/
theorem action_sessInv (st : SessionState) (name : String) (p : ActionParams)
    (h : SessInv st) : SessInv (action st name p).1 := by
  obtain ⟨hc, hs, hpend⟩ := h
  unfold action
  split
  · exact ⟨hc, hs, hpend⟩
  split
  · split
    · rename_i f t _ _
      split
      · exact ⟨hc, hs, hpend⟩
      · exact ⟨hc, hs, trivial⟩
    · exact ⟨hc, hs, hpend⟩
  split
  · exact ⟨hc, hs, trivial⟩
  split
  · split
    · rename_i i f t a heq
      split
      · exact ⟨hc, hs, trivial⟩
      · rename_i hov
        have ha : 0 ≤ a := by
          rw [heq] at hpend
          exact hpend
        have hle : a ≤ bal st.balances f := le_of_not_lt hov
        refine ⟨?_, ?_, trivial⟩ <;>
          cases f <;> cases t <;>
            simp only [bal, setBal] at hle ⊢ <;> linarith
    · exact ⟨hc, hs, hpend⟩
  split
  · exact ⟨hc, hs, hpend⟩
  split
  · exact ⟨hc, hs, hpend⟩
  exact ⟨hc, hs, hpend⟩

/-- Each request preserves the session invariant. -/
theorem sessionStep_sessInv (st : SessionState) (r : Request) (h : SessInv st) :
    SessInv (sessionStep st r) := by
  cases r with
  | orch fid txt =>
      refine ⟨?_, ?_, ?_⟩
      · rw [show (sessionStep st (.orch fid txt)).balances = st.balances from
          orchestrate_balances_eq fid txt st]
        exact h.1
      · rw [show (sessionStep st (.orch fid txt)).balances = st.balances from
          orchestrate_balances_eq fid txt st]
        exact h.2.1
      · exact orchestrate_pendingOk fid txt st h.2.2
  | act name p => exact action_sessInv st name p h

/-- The invariant carries along any request trace. -/
theorem trace_sessInv (rs : List Request) (st : SessionState) (h : SessInv st) :
    SessInv (rs.foldl sessionStep st) := by
  induction rs generalizing st with
  | nil => exact h
  | cons r rest ih => exact ih (sessionStep st r) (sessionStep_sessInv st r h)

/-- The fresh session satisfies the invariant. -/
theorem initSession_sessInv : SessInv initSession :=
  ⟨by norm_num [initSession], by norm_num [initSession], trivial⟩

/-- C2: in every session state reachable from a fresh session by any sequence
of orchestrate and action requests, both balances are non-negative. -/
theorem no_negative_balances (rs : List Request) :
    0 ≤ (rs.foldl sessionStep initSession).balances.checking
    ∧ 0 ≤ (rs.foldl sessionStep initSession).balances.savings :=
  ⟨(trace_sessInv rs initSession initSession_sessInv).1,
    (trace_sessInv rs initSession initSession_sessInv).2.1⟩
